import Mathlib

/-!
Verification model of the ACME challenge validation core.

The challenge engine itself ships outside this tree; only its test suite
(src/acme/challenge_test.go) is present.  Every definition below is therefore
modelled from spec.md, with the behavior pinned down by the assertions of the
test suite where the two texts differ (notably: certificate-shape failures of
the TLS-ALPN probe keep the record in the processing state, spec sections 8
and 9).  SHA-256 is treated as an injected capability, the way the spec
injects probes and the clock.
-/

namespace ACME

/-- ACME problem classes, spec section 7. -/
inductive ProbType where
  | connection
  | dns
  | tls
  | incorrectResponse
  | serverInternal
  | malformed
deriving DecidableEq, Repr

/-- Modelled from the spec: the error taxonomy renders a failure as a problem
document with a class and a detail message. -/
structure AErr where
  typ : ProbType
  detail : String
deriving DecidableEq, Repr

def connectionErr (msg : String) : AErr := ⟨ProbType.connection, msg⟩

def dnsErr (msg : String) : AErr := ⟨ProbType.dns, msg⟩

def tlsErr (msg : String) : AErr := ⟨ProbType.tls, msg⟩

def incorrectResponseErr (msg : String) : AErr := ⟨ProbType.incorrectResponse, msg⟩

def serverInternalErr (msg : String) : AErr := ⟨ProbType.serverInternal, msg⟩

/-- Retry record, spec section 3: present iff a retry is pending. -/
structure Retry where
  nextAttempt : String
deriving DecidableEq, Repr

/-- Modelled from the spec: the challenge record, a tagged variant over
http-01, dns-01 and tls-alpn-01 sharing a common base (spec section 3).
The tag and the status are strings, as in the source record where tests
inject states such as "unknown".  Instants are modelled as naturals with 0
the zero instant. -/
structure Challenge where
  id : String
  accountID : String
  authzID : String
  type : String
  value : String
  token : String
  status : String
  created : Nat
  validated : Nat
  error : Option AErr
  retry : Option Retry
deriving DecidableEq, Repr

def StatusPending : String := "pending"

def StatusProcessing : String := "processing"

def StatusValid : String := "valid"

def StatusInvalid : String := "invalid"

/-- The challenge bucket constant, spec section 6. -/
def challengeTable : String := "acme_challenges"

/-- One base64url alphabet character (RFC 4648 URL-safe alphabet). -/
def b64Char (n : Nat) : Char :=
  if n < 26 then Char.ofNat (65 + n)
  else if n < 52 then Char.ofNat (97 + (n - 26))
  else if n < 62 then Char.ofNat (48 + (n - 52))
  else if n = 62 then Char.ofNat 45
  else Char.ofNat 95

/-- base64url encoding without padding of a byte list. -/
def b64urlEncode : List Nat → String
  | [] => ""
  | [b1] =>
      String.mk [b64Char (b1 / 4 % 64), b64Char (b1 % 4 * 16)]
  | [b1, b2] =>
      String.mk [b64Char (b1 / 4 % 64), b64Char (b1 % 4 * 16 + b2 / 16 % 16),
                 b64Char (b2 % 16 * 4)]
  | b1 :: b2 :: b3 :: rest =>
      String.mk [b64Char (b1 / 4 % 64), b64Char (b1 % 4 * 16 + b2 / 16 % 16),
                 b64Char (b2 % 16 * 4 + b3 / 64 % 4), b64Char (b3 % 64)] ++
        b64urlEncode rest

/-- One lowercase hexadecimal digit. -/
def hexChar (n : Nat) : Char :=
  if n < 10 then Char.ofNat (48 + n) else Char.ofNat (87 + n)

/-- Lowercase hexadecimal rendering of a byte list. -/
def hexEncode : List Nat → String
  | [] => ""
  | b :: rest => String.mk [hexChar (b / 16 % 16), hexChar (b % 16)] ++ hexEncode rest

/-- An injected hash capability standing for SHA-256 over UTF-8 strings. -/
def HashFn : Type := String → List Nat

/-- Modelled from the spec: the account JWK as the key-authorization
derivation sees it; a key is an EC or RSA public key, or a malformed key
from which no thumbprint can be produced. -/
inductive JWK where
  | ec (crv x y : String)
  | rsa (e n : String)
  | badKey (goType : String)
deriving DecidableEq, Repr

/-- RFC 7638 canonical thumbprint input: required fields only, sorted
lexicographically, no whitespace. -/
def thumbprintJSON : JWK → Option String
  | JWK.ec crv x y =>
      some ("\x7b\"crv\":\"" ++ crv ++ "\",\"kty\":\"EC\",\"x\":\"" ++ x ++
            "\",\"y\":\"" ++ y ++ "\"\x7d")
  | JWK.rsa e n =>
      some ("\x7b\"e\":\"" ++ e ++ "\",\"kty\":\"RSA\",\"n\":\"" ++ n ++ "\"\x7d")
  | JWK.badKey _ => none

/-- Modelled from the spec: the JWK thumbprint, the hash of the canonical
RFC 7638 serialization; fails on a malformed key. -/
def jwkThumbprint (H : HashFn) : JWK → Except String (List Nat)
  | JWK.badKey goType =>
      Except.error ("square/go-jose: unknown key type \x27" ++ goType ++ "\x27")
  | k =>
      match thumbprintJSON k with
      | some s => Except.ok (H s)
      | none => Except.error "square/go-jose: unknown key type"

/-- Modelled from the spec: key-authorization derivation (spec section 4.1),
token "." base64url(SHA-256 thumbprint); ServerInternal on a malformed JWK. -/
def KeyAuthorization (H : HashFn) (token : String) (jwk : JWK) : Except AErr String :=
  match jwkThumbprint H jwk with
  | Except.error e =>
      Except.error (serverInternalErr ("error generating JWK thumbprint: " ++ e))
  | Except.ok tp => Except.ok (token ++ "." ++ b64urlEncode tp)

/-- A JSON field value of the persisted challenge document. -/
inductive JVal where
  | jstr (s : String)
  | jnat (n : Nat)
  | jnull
  | jerr (ptype : String) (detail : String)
  | jretry (nextAttempt : String)
deriving DecidableEq, Repr

/-- A parsed JSON document: named fields with no ordering significance. -/
abbrev JDoc : Type := List (String × JVal)

def lookupField : JDoc → String → Option JVal
  | [], _ => none
  | (k2, v) :: rest, k => if k2 = k then some v else lookupField rest k

def probTypeString : ProbType → String
  | ProbType.connection => "urn:ietf:params:acme:error:connection"
  | ProbType.dns => "urn:ietf:params:acme:error:dns"
  | ProbType.tls => "urn:ietf:params:acme:error:tls"
  | ProbType.incorrectResponse => "urn:ietf:params:acme:error:incorrectResponse"
  | ProbType.serverInternal => "urn:ietf:params:acme:error:serverInternal"
  | ProbType.malformed => "urn:ietf:params:acme:error:malformed"

def probTypeOfString (s : String) : Option ProbType :=
  if s = "urn:ietf:params:acme:error:connection" then some ProbType.connection
  else if s = "urn:ietf:params:acme:error:dns" then some ProbType.dns
  else if s = "urn:ietf:params:acme:error:tls" then some ProbType.tls
  else if s = "urn:ietf:params:acme:error:incorrectResponse" then some ProbType.incorrectResponse
  else if s = "urn:ietf:params:acme:error:serverInternal" then some ProbType.serverInternal
  else if s = "urn:ietf:params:acme:error:malformed" then some ProbType.malformed
  else none

/-- Modelled from the spec: serialization of a challenge record to its single
JSON document (spec section 6, persisted record layout). -/
def serializeChallenge (ch : Challenge) : JDoc :=
  [("id", JVal.jstr ch.id),
   ("accountID", JVal.jstr ch.accountID),
   ("authzID", JVal.jstr ch.authzID),
   ("type", JVal.jstr ch.type),
   ("value", JVal.jstr ch.value),
   ("token", JVal.jstr ch.token),
   ("status", JVal.jstr ch.status),
   ("created", JVal.jnat ch.created),
   ("validated", JVal.jnat ch.validated),
   ("error", match ch.error with
             | some e => JVal.jerr (probTypeString e.typ) e.detail
             | none => JVal.jnull),
   ("retry", match ch.retry with
             | some r => JVal.jretry r.nextAttempt
             | none => JVal.jnull)]

def getStrField (j : JDoc) (k : String) : Option String :=
  match lookupField j k with
  | some (JVal.jstr s) => some s
  | _ => none

def getNatField (j : JDoc) (k : String) : Option Nat :=
  match lookupField j k with
  | some (JVal.jnat n) => some n
  | _ => none

def getErrField (j : JDoc) (k : String) : Option (Option AErr) :=
  match lookupField j k with
  | some JVal.jnull => some none
  | some (JVal.jerr t d) =>
      match probTypeOfString t with
      | some pt => some (some ⟨pt, d⟩)
      | none => none
  | _ => none

def getRetryField (j : JDoc) (k : String) : Option (Option Retry) :=
  match lookupField j k with
  | some JVal.jnull => some none
  | some (JVal.jretry na) => some (some ⟨na⟩)
  | _ => none

/-- Field-by-field reconstruction of a challenge record from its document. -/
def parseBaseChallenge (j : JDoc) : Option Challenge := do
  let id ← getStrField j "id"
  let accountID ← getStrField j "accountID"
  let authzID ← getStrField j "authzID"
  let type ← getStrField j "type"
  let value ← getStrField j "value"
  let token ← getStrField j "token"
  let status ← getStrField j "status"
  let created ← getNatField j "created"
  let validated ← getNatField j "validated"
  let error ← getErrField j "error"
  let retry ← getRetryField j "retry"
  pure { id := id, accountID := accountID, authzID := authzID, type := type,
         value := value, token := token, status := status, created := created,
         validated := validated, error := error, retry := retry }

/-- Modelled from the spec: deserialization of challenge bytes.  The bytes are
a parsed document, or none when the input is not valid JSON (nil or empty
input included).  The type field dispatches over the three allowed tags;
everything else is a ServerInternal failure (spec section 8, property 4). -/
def unmarshalChallenge : Option JDoc → Except AErr Challenge
  | none =>
      Except.error (serverInternalErr
        "error unmarshaling challenge type: unexpected end of JSON input")
  | some j =>
      match lookupField j "type" with
      | some (JVal.jstr t) =>
          if t = "http-01" ∨ t = "dns-01" ∨ t = "tls-alpn-01" then
            match parseBaseChallenge j with
            | some ch => Except.ok ch
            | none =>
                Except.error (serverInternalErr
                  ("error unmarshaling challenge map to " ++ t ++ " challenge"))
          else Except.error (serverInternalErr ("unexpected challenge type " ++ t))
      | some _ =>
          Except.error (serverInternalErr
            "error unmarshaling challenge type: json: cannot unmarshal value")
      | none =>
          Except.error (serverInternalErr ("unexpected challenge type " ++ ""))

/-- One compare-and-swap request against the persistence port
(spec section 4.2): bucket, key, expected old bytes, new bytes. -/
structure CASCall where
  bucket : String
  key : String
  old : Option JDoc
  newv : JDoc
deriving DecidableEq, Repr

/-- The store's answer to a compare-and-swap: the actual old value, whether
the swap was committed, and an optional I/O error. -/
structure DBAnswer where
  value : Option JDoc
  swapped : Bool
  ioError : Option String
deriving Repr

/-- The persistence capability: a deterministic oracle answering each
compare-and-swap request. -/
def DBOracle : Type := CASCall → DBAnswer

/-- The single compare-and-swap request a save issues. -/
def saveCall (ch : Challenge) (old : Option Challenge) : CASCall :=
  { bucket := challengeTable, key := ch.id,
    old := Option.map serializeChallenge old, newv := serializeChallenge ch }

/-- Modelled from the spec: a persisted write (spec section 4.2).  Every save
is one CAS; an I/O error or a refused swap is a ServerInternal failure and
nothing further is written.  The list returned is the trace of storage
requests issued. -/
def save (db : DBOracle) (ch : Challenge) (old : Option Challenge) :
    Except AErr Unit × List CASCall :=
  let c := saveCall ch old
  match (db c).ioError with
  | some e =>
      (Except.error (serverInternalErr ("error saving acme challenge: " ++ e)), [c])
  | none =>
      if (db c).swapped then (Except.ok (), [c])
      else
        (Except.error (serverInternalErr
          "error saving acme challenge; acme challenge has changed since last read"), [c])

/-- Persist the mutated copy of a record against its previous bytes and
return it. -/
def saveReturning (db : DBOracle) (upd old : Challenge) :
    Except AErr Challenge × List CASCall :=
  match save db upd (some old) with
  | (Except.ok _, calls) => (Except.ok upd, calls)
  | (Except.error e, calls) => (Except.error e, calls)

/-- Record a probe failure on the challenge without changing its status and
persist the result (the transient outcome of spec section 4.4). -/
def storeError (db : DBOracle) (ch : Challenge) (e : AErr) :
    Except AErr Challenge × List CASCall :=
  saveReturning db { ch with error := some e } ch

/-- An HTTP GET outcome as the injected performer reports it: a status code
and a body whose read may itself fail. -/
structure HTTPResponse where
  statusCode : Nat
  body : Except String String

/-- An X.509 extension of the leaf certificate. -/
structure TLSExtension where
  oid : List Nat
  critical : Bool
  value : List Nat
deriving DecidableEq, Repr

structure TLSCertificate where
  dnsNames : List String
  extensions : List TLSExtension
deriving DecidableEq, Repr

/-- The completed-handshake state the injected TLS dialer exposes. -/
structure TLSConnState where
  negotiatedProtocol : String
  peerCertificates : List TLSCertificate
deriving DecidableEq, Repr

/-- The injected probe capabilities (spec section 6): an HTTP performer, a
DNS resolver and a TLS dialer, each a deterministic double in tests. -/
structure ValidateOptions where
  httpGet : String → Except String HTTPResponse
  lookupTxt : String → Except String (List String)
  tlsDial : String → Except String TLSConnState

def http01ChallengeURL (value token : String) : String :=
  "http://" ++ value ++ "/.well-known/acme-challenge/" ++ token

/-- Leading and trailing whitespace removal (the trim the HTTP-01 probe
applies to the response body). -/
def trimSpace (s : String) : String :=
  String.mk (((s.data.dropWhile Char.isWhitespace).reverse.dropWhile
    Char.isWhitespace).reverse)

/-- Modelled from the spec: the HTTP-01 probe on a processing record
(spec section 4.3.1): transport error and status >= 400 are transient
Connection failures, a body-read failure is a transient ServerInternal
failure, a trimmed body equal to the key-authorization is a match, anything
else is a terminal IncorrectResponse mismatch. -/
def http01Probe (H : HashFn) (db : DBOracle) (now : Nat) (ch : Challenge)
    (jwk : JWK) (vo : ValidateOptions) : Except AErr Challenge × List CASCall :=
  let url := http01ChallengeURL ch.value ch.token
  match vo.httpGet url with
  | Except.error e =>
      storeError db ch (connectionErr ("error doing http GET for url " ++ url ++ ": " ++ e))
  | Except.ok resp =>
      if 400 ≤ resp.statusCode then
        storeError db ch (connectionErr
          ("error doing http GET for url " ++ url ++ " with status code " ++
           toString resp.statusCode))
      else
        match resp.body with
        | Except.error e =>
            storeError db ch (serverInternalErr
              ("error reading response body for url " ++ url ++ ": " ++ e))
        | Except.ok bodyRaw =>
            match KeyAuthorization H ch.token jwk with
            | Except.error err => (Except.error err, [])
            | Except.ok expected =>
                let body := trimSpace bodyRaw
                if expected = body then
                  saveReturning db
                    { ch with status := StatusValid, validated := now,
                              error := none, retry := none } ch
                else
                  saveReturning db
                    { ch with status := StatusInvalid, retry := none,
                              error := some (incorrectResponseErr
                                ("keyAuthorization does not match; expected " ++
                                 expected ++ ", but got " ++ body)) } ch

/-- The domain a DNS-01 probe queries: the identifier with a leading
wildcard label stripped. -/
def dns01Domain (value : String) : String :=
  if List.isPrefixOf "*.".data value.data then String.mk (value.data.drop 2)
  else value

/-- Render a TXT record list the way the mismatch message shows it. -/
def txtListString (txts : List String) : String :=
  "[" ++ String.intercalate " " txts ++ "]"

/-- Modelled from the spec: the DNS-01 probe on a processing record
(spec section 4.3.2): resolver failure and an empty record set are transient
DNS failures; a TXT record equal to base64url(SHA-256(keyAuth)) is a match;
anything else is a terminal IncorrectResponse mismatch. -/
def dns01Probe (H : HashFn) (db : DBOracle) (now : Nat) (ch : Challenge)
    (jwk : JWK) (vo : ValidateOptions) : Except AErr Challenge × List CASCall :=
  let domain := dns01Domain ch.value
  match vo.lookupTxt ("_acme-challenge." ++ domain) with
  | Except.error e =>
      storeError db ch (dnsErr
        ("error looking up TXT records for domain " ++ ch.value ++ ": " ++ e))
  | Except.ok txts =>
      if txts.isEmpty then
        storeError db ch (dnsErr
          ("no TXT record found at \x27_acme-challenge." ++ domain ++ "\x27"))
      else
        match KeyAuthorization H ch.token jwk with
        | Except.error err => (Except.error err, [])
        | Except.ok keyAuth =>
            let expected := b64urlEncode (H keyAuth)
            if txts.contains expected then
              saveReturning db
                { ch with status := StatusValid, validated := now,
                          error := none, retry := none } ch
            else
              saveReturning db
                { ch with status := StatusInvalid, retry := none,
                          error := some (incorrectResponseErr
                            ("keyAuthorization does not match; expected " ++ keyAuth ++
                             ", but got " ++ txtListString txts)) } ch

def idPeAcmeIdentifier : List Nat := [1, 3, 6, 1, 5, 5, 7, 1, 31]

def idPeAcmeIdentifierV1Obsolete : List Nat := [1, 3, 6, 1, 5, 5, 7, 1, 30, 1]

def findExtension (oid : List Nat) : List TLSExtension → Option TLSExtension
  | [] => none
  | e :: rest => if e.oid = oid then some e else findExtension oid rest

/-- Decode a short-form DER OCTET STRING: tag 0x04, one length byte, the
content octets, nothing trailing. -/
def parseOctetString : List Nat → Option (List Nat)
  | 4 :: len :: content =>
      if content.length = len ∧ len < 128 then some content else none
  | _ => none

/-- Modelled from the spec: the TLS-ALPN-01 probe on a processing record
(spec sections 4.3.3, 8 and 9).  Dial failure is a transient Connection
failure; the handshake-level and certificate-shape failures are recorded
(class TLS, and IncorrectResponse for the acmeValidationV1 extension
failures) while the record stays processing, the behavior the spec's
section 9 pins down; only a decoded extension hash differing from
SHA-256(keyAuth) is terminal, and an equal hash is a match. -/
def tlsAlpn01Probe (H : HashFn) (db : DBOracle) (now : Nat) (ch : Challenge)
    (jwk : JWK) (vo : ValidateOptions) : Except AErr Challenge × List CASCall :=
  let hostPort := ch.value ++ ":443"
  match vo.tlsDial hostPort with
  | Except.error e =>
      storeError db ch (connectionErr ("error doing TLS dial for " ++ hostPort ++ ": " ++ e))
  | Except.ok cs =>
      match cs.peerCertificates with
      | [] =>
          storeError db ch (tlsErr
            ("tls-alpn-01 challenge for " ++ ch.value ++ " resulted in no certificates"))
      | leafCert :: _ =>
          if cs.negotiatedProtocol ≠ "acme-tls/1" then
            storeError db ch (tlsErr
              "cannot negotiate ALPN acme-tls/1 protocol for tls-alpn-01 challenge")
          else if leafCert.dnsNames ≠ [ch.value] then
            storeError db ch (tlsErr
              ("incorrect certificate for tls-alpn-01 challenge: leaf certificate must contain a single DNS name, " ++ ch.value))
          else
            match KeyAuthorization H ch.token jwk with
            | Except.error err => (Except.error err, [])
            | Except.ok keyAuth =>
                let expectedHash := H keyAuth
                match findExtension idPeAcmeIdentifier leafCert.extensions with
                | some ext =>
                    if ext.critical then
                      match parseOctetString ext.value with
                      | none =>
                          storeError db ch (incorrectResponseErr
                            "incorrect certificate for tls-alpn-01 challenge: malformed acmeValidationV1 extension value")
                      | some extValue =>
                          if extValue = expectedHash then
                            saveReturning db
                              { ch with status := StatusValid, validated := now,
                                        error := none, retry := none } ch
                          else
                            saveReturning db
                              { ch with status := StatusInvalid, retry := none,
                                        error := some (incorrectResponseErr
                                          ("incorrect certificate for tls-alpn-01 challenge: expected acmeValidationV1 extension value " ++
                                           hexEncode expectedHash ++ " for this challenge but got " ++
                                           hexEncode extValue)) } ch
                    else
                      storeError db ch (incorrectResponseErr
                        "incorrect certificate for tls-alpn-01 challenge: acmeValidationV1 extension not critical")
                | none =>
                    if (findExtension idPeAcmeIdentifierV1Obsolete leafCert.extensions).isSome then
                      storeError db ch (incorrectResponseErr
                        "incorrect certificate for tls-alpn-01 challenge: obsolete id-pe-acmeIdentifier in acmeValidationV1 extension")
                    else
                      storeError db ch (incorrectResponseErr
                        "incorrect certificate for tls-alpn-01 challenge: missing acmeValidationV1 extension")

/-- Modelled from the spec: the validation engine entry point
(spec section 4.4).  Terminal records are a pure no-op with no storage
traffic; pending and unknown states are ServerInternal failures; a
processing record runs the probe of its variant. -/
def validateChallenge (H : HashFn) (db : DBOracle) (now : Nat) (ch : Challenge)
    (jwk : JWK) (vo : ValidateOptions) : Except AErr Challenge × List CASCall :=
  if ch.status = StatusValid ∨ ch.status = StatusInvalid then (Except.ok ch, [])
  else if ch.status = StatusPending then
    (Except.error (serverInternalErr
      "pending challenges must first be moved to the processing state"), [])
  else if ch.status = StatusProcessing then
    if ch.type = "http-01" then http01Probe H db now ch jwk vo
    else if ch.type = "dns-01" then dns01Probe H db now ch jwk vo
    else if ch.type = "tls-alpn-01" then tlsAlpn01Probe H db now ch jwk vo
    else (Except.error (serverInternalErr ("unexpected challenge type " ++ ch.type)), [])
  else
    (Except.error (serverInternalErr ("unknown challenge state: " ++ ch.status)), [])

/-- The six fields the spec declares immutable after creation
(spec section 3, invariant 5). -/
def immutableFieldsEq (a b : Challenge) : Prop :=
  a.type = b.type ∧ a.token = b.token ∧ a.id = b.id ∧
  a.accountID = b.accountID ∧ a.authzID = b.authzID ∧ a.created = b.created

/-- A concrete stand-in for the injected hash capability. -/
def hashLen : HashFn := fun s => [s.length % 256]

/-- A store that accepts every compare-and-swap. -/
def dbOk : DBOracle := fun _ => { value := none, swapped := true, ioError := none }

/-- A store that refuses every compare-and-swap without an I/O error. -/
def dbStale : DBOracle := fun _ => { value := some [], swapped := false, ioError := none }

def jwkFix : JWK := JWK.ec "P-256" "qx" "qy"

def jwkBad : JWK := JWK.badKey "string"

def chFix : Challenge :=
  { id := "chID", accountID := "accID", authzID := "authzID", type := "http-01",
    value := "zap.internal", token := "tok", status := "processing",
    created := 5, validated := 0, error := none, retry := none }

def chDNS : Challenge := { chFix with type := "dns-01", value := "*.zap.internal" }

def chTLS : Challenge := { chFix with type := "tls-alpn-01" }

/-- Probe bundle whose three capabilities all fail at the transport level. -/
def voNone : ValidateOptions :=
  { httpGet := fun _ => Except.error "force",
    lookupTxt := fun _ => Except.error "force",
    tlsDial := fun _ => Except.error "force" }

/-- The key-authorization of chFix under hashLen and jwkFix. -/
def kaFix : String := "tok.LA"

/-- A handshake state presenting one certificate with the right SAN and no
acmeValidationV1 extension. -/
def csMissingExt : TLSConnState :=
  { negotiatedProtocol := "acme-tls/1",
    peerCertificates := [{ dnsNames := ["zap.internal"], extensions := [] }] }

def voMissingExt : ValidateOptions := { voNone with tlsDial := fun _ => Except.ok csMissingExt }

/-- Performer double answering status 400 with an empty body. -/
def voHTTP400 : ValidateOptions :=
  { voNone with httpGet := fun _ => Except.ok { statusCode := 400, body := Except.ok "" } }

/-- Performer double whose body read fails. -/
def voHTTPBadBody : ValidateOptions :=
  { voNone with httpGet := fun _ => Except.ok { statusCode := 200, body := Except.error "force" } }

/-- Performer double answering the expected key-authorization with trailing
whitespace. -/
def voHTTPGood : ValidateOptions :=
  { voNone with httpGet := fun _ => Except.ok { statusCode := 200, body := Except.ok "tok.LA " } }

/-- Performer double answering a wrong body. -/
def voHTTPFoo : ValidateOptions :=
  { voNone with httpGet := fun _ => Except.ok { statusCode := 200, body := Except.ok "foo" } }

/-- A leaf certificate carrying a critical acmeValidationV1 extension whose
DER OCTET STRING decodes to a value other than the expected hash. -/
def certMismatch : TLSCertificate :=
  { dnsNames := ["zap.internal"],
    extensions := [{ oid := idPeAcmeIdentifier, critical := true, value := [4, 1, 9] }] }

def csMismatch : TLSConnState :=
  { negotiatedProtocol := "acme-tls/1", peerCertificates := [certMismatch] }

def voTLSMismatch : ValidateOptions :=
  { voNone with tlsDial := fun _ => Except.ok csMismatch }

/-- Resolver double returning a stray record and the expected digest. -/
def voDNSWild : ValidateOptions :=
  { voNone with lookupTxt := fun _ => Except.ok ["foo", b64urlEncode (hashLen kaFix)] }

/-- chFix after a successful validation at instant 7. -/
def chFixValid : Challenge :=
  { chFix with status := StatusValid, validated := 7, error := none, retry := none }

/-!  Helper lemmas about the persistence combinators. -/

theorem saveReturning_cases (db : DBOracle) (upd old : Challenge) :
    saveReturning db upd old = (Except.ok upd, [saveCall upd (some old)]) ∨
    ∃ e, saveReturning db upd old = (Except.error e, [saveCall upd (some old)]) := by
  unfold saveReturning save
  cases hio : (db (saveCall upd (some old))).ioError with
  | none =>
      by_cases hsw : (db (saveCall upd (some old))).swapped
      · left; simp [hio, hsw]
      · right
        refine ⟨serverInternalErr
          "error saving acme challenge; acme challenge has changed since last read", ?_⟩
        simp [hio, hsw]
  | some e =>
      right
      refine ⟨serverInternalErr ("error saving acme challenge: " ++ e), ?_⟩
      simp [hio]

theorem saveReturning_ok_inv {db : DBOracle} {upd old r : Challenge}
    {calls : List CASCall}
    (h : saveReturning db upd old = (Except.ok r, calls)) :
    r = upd ∧ calls = [saveCall upd (some old)] := by
  rcases saveReturning_cases db upd old with hc | ⟨e, hc⟩ <;> rw [hc] at h <;>
    simp only [Prod.mk.injEq] at h
  · exact ⟨(Except.ok.inj h.1).symm, h.2.symm⟩
  · exact absurd h.1 (by simp)

theorem saveReturning_of_dbOkAnswers {db : DBOracle} (upd old : Challenge)
    (hdb : ∀ c, db c = { value := none, swapped := true, ioError := none }) :
    saveReturning db upd old = (Except.ok upd, [saveCall upd (some old)]) := by
  unfold saveReturning save
  simp [hdb]

/-!  Gate and dispatch reductions of the engine. -/

theorem validateChallenge_http (H : HashFn) (db : DBOracle) (now : Nat)
    (ch : Challenge) (jwk : JWK) (vo : ValidateOptions)
    (hst : ch.status = StatusProcessing) (htyp : ch.type = "http-01") :
    validateChallenge H db now ch jwk vo = http01Probe H db now ch jwk vo := by
  simp [validateChallenge, hst, htyp, StatusValid, StatusInvalid, StatusPending,
        StatusProcessing]

theorem validateChallenge_dns (H : HashFn) (db : DBOracle) (now : Nat)
    (ch : Challenge) (jwk : JWK) (vo : ValidateOptions)
    (hst : ch.status = StatusProcessing) (htyp : ch.type = "dns-01") :
    validateChallenge H db now ch jwk vo = dns01Probe H db now ch jwk vo := by
  simp [validateChallenge, hst, htyp, StatusValid, StatusInvalid, StatusPending,
        StatusProcessing]

theorem validateChallenge_tls (H : HashFn) (db : DBOracle) (now : Nat)
    (ch : Challenge) (jwk : JWK) (vo : ValidateOptions)
    (hst : ch.status = StatusProcessing) (htyp : ch.type = "tls-alpn-01") :
    validateChallenge H db now ch jwk vo = tlsAlpn01Probe H db now ch jwk vo := by
  simp [validateChallenge, hst, htyp, StatusValid, StatusInvalid, StatusPending,
        StatusProcessing]

/-- C2: validate on a valid or invalid record is a pure no-op returning the
record unchanged with zero storage calls; on a pending record it fails with
the ServerInternal pending-state message; on any status outside pending,
processing, valid and invalid it fails with ServerInternal
"unknown challenge state: <s>".  In every gate case the storage trace is
empty. -/
theorem validate_status_gate (H : HashFn) (db : DBOracle) (now : Nat)
    (ch : Challenge) (jwk : JWK) (vo : ValidateOptions) :
    ((ch.status = StatusValid ∨ ch.status = StatusInvalid) →
       validateChallenge H db now ch jwk vo = (Except.ok ch, [])) ∧
    (ch.status = StatusPending →
       validateChallenge H db now ch jwk vo =
         (Except.error (serverInternalErr
           "pending challenges must first be moved to the processing state"), [])) ∧
    (ch.status ≠ StatusPending → ch.status ≠ StatusProcessing →
     ch.status ≠ StatusValid → ch.status ≠ StatusInvalid →
       validateChallenge H db now ch jwk vo =
         (Except.error (serverInternalErr
           ("unknown challenge state: " ++ ch.status)), [])) := by
  refine ⟨?_, ?_, ?_⟩
  · intro h; simp [validateChallenge, h]
  · intro h
    simp [validateChallenge, h, StatusValid, StatusInvalid, StatusPending]
  · intro h1 h2 h3 h4
    simp [validateChallenge, h1, h2, h3, h4]

theorem validate_status_gate_witness :
    validateChallenge hashLen dbOk 7 { chFix with status := StatusValid } jwkFix voNone =
      (Except.ok { chFix with status := StatusValid }, []) ∧
    validateChallenge hashLen dbOk 7 { chFix with status := StatusPending } jwkFix voNone =
      (Except.error (serverInternalErr
        "pending challenges must first be moved to the processing state"), []) ∧
    validateChallenge hashLen dbOk 7 { chFix with status := "unknown" } jwkFix voNone =
      (Except.error (serverInternalErr "unknown challenge state: unknown"), []) :=
  ⟨(validate_status_gate hashLen dbOk 7 { chFix with status := StatusValid } jwkFix voNone).1
      (Or.inl rfl),
   (validate_status_gate hashLen dbOk 7 { chFix with status := StatusPending } jwkFix voNone).2.1
      rfl,
   (validate_status_gate hashLen dbOk 7 { chFix with status := "unknown" } jwkFix voNone).2.2
      (by decide) (by decide) (by decide) (by decide)⟩

/-- C3: key-authorization derivation is a pure function of the token and the
JWK: for every JWK with an RFC 7638 canonical serialization it returns
token "." base64url(hash of the canonical serialization), and for every JWK
from which no thumbprint can be produced it fails with a ServerInternal
error. -/
theorem keyAuthorization_spec (H : HashFn) (token : String) :
    (∀ jwk s, thumbprintJSON jwk = some s →
       KeyAuthorization H token jwk =
         Except.ok (token ++ "." ++ b64urlEncode (H s))) ∧
    (∀ jwk, thumbprintJSON jwk = none →
       ∃ msg, KeyAuthorization H token jwk =
         Except.error (serverInternalErr msg)) := by
  constructor
  · intro jwk s h
    cases jwk with
    | ec crv x y =>
        simp only [thumbprintJSON, Option.some.injEq] at h
        simp [KeyAuthorization, jwkThumbprint, thumbprintJSON, h]
    | rsa e n =>
        simp only [thumbprintJSON, Option.some.injEq] at h
        simp [KeyAuthorization, jwkThumbprint, thumbprintJSON, h]
    | badKey t => simp [thumbprintJSON] at h
  · intro jwk h
    cases jwk with
    | ec crv x y => simp [thumbprintJSON] at h
    | rsa e n => simp [thumbprintJSON] at h
    | badKey t => exact ⟨_, rfl⟩

theorem keyAuthorization_spec_witness :
    KeyAuthorization hashLen "tok" jwkFix =
      Except.ok ("tok" ++ "." ++ b64urlEncode (hashLen
        "\x7b\"crv\":\"P-256\",\"kty\":\"EC\",\"x\":\"qx\",\"y\":\"qy\"\x7d")) ∧
    ∃ msg, KeyAuthorization hashLen "tok" jwkBad =
      Except.error (serverInternalErr msg) :=
  ⟨(keyAuthorization_spec hashLen "tok").1 jwkFix _ rfl,
   (keyAuthorization_spec hashLen "tok").2 jwkBad rfl⟩

/-- C7: whenever a persisted write reaches the store and the store answers
swapped = false with no I/O error, save returns the ServerInternal
stale-read error and its storage trace is exactly the one compare-and-swap
request: no further writes and no internal retry. -/
theorem save_cas_conflict (db : DBOracle) (ch : Challenge)
    (old : Option Challenge) (v : Option JDoc)
    (h : db (saveCall ch old) = { value := v, swapped := false, ioError := none }) :
    save db ch old =
      (Except.error (serverInternalErr
        "error saving acme challenge; acme challenge has changed since last read"),
       [saveCall ch old]) := by
  unfold save
  simp [h]

theorem probType_roundtrip (t : ProbType) :
    probTypeOfString (probTypeString t) = some t := by
  cases t <;> rfl

theorem parse_serialize (ch : Challenge) :
    parseBaseChallenge (serializeChallenge ch) = some ch := by
  cases ch with
  | mk id accountID authzID type value token status created validated error retry =>
      cases error <;> cases retry <;>
        simp [serializeChallenge, parseBaseChallenge, getStrField, getNatField,
              getErrField, getRetryField, lookupField, probType_roundtrip]

theorem parseBaseChallenge_type {j : JDoc} {ch : Challenge}
    (h : parseBaseChallenge j = some ch) :
    getStrField j "type" = some ch.type := by
  simp only [parseBaseChallenge, Option.bind_eq_bind, Option.bind_eq_some,
             Option.pure_def, Option.some.injEq] at h
  obtain ⟨i1, h1, a1, h2, z1, h3, t1, h4, v1, h5, k1, h6, s1, h7, c1, h8, d1, h9,
          e1, h10, r1, h11, hch⟩ := h
  subst hch
  exact h4

/-- C8: serializing a challenge record whose type is http-01, dns-01 or
tls-alpn-01 and deserializing the bytes yields the original record, and
deserializing any document whose type field lies outside that set fails with
ServerInternal "unexpected challenge type <type>". -/
theorem challenge_serialization_spec :
    (∀ ch : Challenge,
       (ch.type = "http-01" ∨ ch.type = "dns-01" ∨ ch.type = "tls-alpn-01") →
       unmarshalChallenge (some (serializeChallenge ch)) = Except.ok ch) ∧
    (∀ (j : JDoc) (t : String), lookupField j "type" = some (JVal.jstr t) →
       ¬(t = "http-01" ∨ t = "dns-01" ∨ t = "tls-alpn-01") →
       unmarshalChallenge (some j) =
         Except.error (serverInternalErr ("unexpected challenge type " ++ t))) := by
  constructor
  · intro ch h
    have hl : lookupField (serializeChallenge ch) "type" = some (JVal.jstr ch.type) := by
      simp [serializeChallenge, lookupField]
    simp only [unmarshalChallenge, hl]
    simp [h, parse_serialize ch]
  · intro j t hl hnot
    simp only [unmarshalChallenge, hl]
    simp [hnot]

theorem challenge_serialization_spec_witness :
    unmarshalChallenge (some (serializeChallenge chDNS)) = Except.ok chDNS ∧
    unmarshalChallenge (some (serializeChallenge { chFix with type := "foo" })) =
      Except.error (serverInternalErr ("unexpected challenge type " ++ "foo")) :=
  ⟨challenge_serialization_spec.1 chDNS (Or.inr (Or.inl rfl)),
   challenge_serialization_spec.2 (serializeChallenge { chFix with type := "foo" })
     "foo" rfl (by decide)⟩

/-- C10: deserialization is total at the error level: unparseable input
(nil or empty bytes) yields a ServerInternal error whose message begins
"error unmarshaling challenge type", and a challenge value is returned only
for a parsed document whose type field is http-01, dns-01 or tls-alpn-01. -/
theorem unmarshal_totality :
    (∃ rest, unmarshalChallenge none =
       Except.error (serverInternalErr
         ("error unmarshaling challenge type" ++ rest))) ∧
    (∀ (b : Option JDoc) (ch : Challenge), unmarshalChallenge b = Except.ok ch →
       ∃ j, b = some j ∧ getStrField j "type" = some ch.type ∧
         (ch.type = "http-01" ∨ ch.type = "dns-01" ∨ ch.type = "tls-alpn-01")) := by
  constructor
  · exact ⟨": unexpected end of JSON input", rfl⟩
  · intro b ch h
    cases b with
    | none => simp [unmarshalChallenge] at h
    | some j =>
        refine ⟨j, rfl, ?_⟩
        simp only [unmarshalChallenge] at h
        cases hl : lookupField j "type" with
        | none => simp only [hl] at h; simp at h
        | some v =>
            cases v with
            | jstr t =>
                simp only [hl] at h
                by_cases hc : t = "http-01" ∨ t = "dns-01" ∨ t = "tls-alpn-01"
                · rw [if_pos hc] at h
                  cases hp : parseBaseChallenge j with
                  | none => simp only [hp] at h; simp at h
                  | some ch0 =>
                      simp only [hp, Except.ok.injEq] at h
                      subst h
                      have ht := parseBaseChallenge_type hp
                      have ht2 : getStrField j "type" = some t := by
                        simp [getStrField, hl]
                      have htt : ch0.type = t := by
                        rw [ht] at ht2; exact Option.some.inj ht2
                      refine ⟨ht, ?_⟩
                      rw [htt]; exact hc
                · rw [if_neg hc] at h; simp at h
            | jnat n => simp only [hl] at h; simp at h
            | jnull => simp only [hl] at h; simp at h
            | jerr a b2 => simp only [hl] at h; simp at h
            | jretry a => simp only [hl] at h; simp at h

theorem unmarshal_totality_witness :
    (∃ rest, unmarshalChallenge none =
       Except.error (serverInternalErr
         ("error unmarshaling challenge type" ++ rest))) ∧
    (∃ j, some (serializeChallenge chTLS) = some j ∧
       getStrField j "type" = some chTLS.type ∧
       (chTLS.type = "http-01" ∨ chTLS.type = "dns-01" ∨ chTLS.type = "tls-alpn-01")) :=
  ⟨unmarshal_totality.1,
   unmarshal_totality.2 (some (serializeChallenge chTLS)) chTLS rfl⟩

theorem save_cas_conflict_witness :
    save dbStale chFix none =
      (Except.error (serverInternalErr
        "error saving acme challenge; acme challenge has changed since last read"),
       [saveCall chFix none]) :=
  save_cas_conflict dbStale chFix none (some []) rfl

/-- C1: for every http-01 challenge in processing, against a store that
accepts the save: a transport error from the performer leaves the status
processing and records a Connection-class error; a response status >= 400
does the same with the status code in the message; a body-read failure
leaves the status processing and records a ServerInternal-class error; a
trimmed body equal to the expected key-authorization sets status valid,
validated = now, and clears error and retry; any other body sets status
invalid with the IncorrectResponse mismatch message naming the expected
key-authorization and the received body. -/
theorem http01_validate_outcomes (H : HashFn) (db : DBOracle) (now : Nat)
    (ch : Challenge) (jwk : JWK)
    (htyp : ch.type = "http-01") (hst : ch.status = StatusProcessing)
    (hdb : ∀ c, db c = { value := none, swapped := true, ioError := none }) :
    (∀ (vo : ValidateOptions) (e : String),
       vo.httpGet (http01ChallengeURL ch.value ch.token) = Except.error e →
       (validateChallenge H db now ch jwk vo).1 =
         Except.ok { ch with error := some (connectionErr
           ("error doing http GET for url " ++ http01ChallengeURL ch.value ch.token ++
            ": " ++ e)) }) ∧
    (∀ (vo : ValidateOptions) (resp : HTTPResponse),
       vo.httpGet (http01ChallengeURL ch.value ch.token) = Except.ok resp →
       400 ≤ resp.statusCode →
       (validateChallenge H db now ch jwk vo).1 =
         Except.ok { ch with error := some (connectionErr
           ("error doing http GET for url " ++ http01ChallengeURL ch.value ch.token ++
            " with status code " ++ toString resp.statusCode)) }) ∧
    (∀ (vo : ValidateOptions) (resp : HTTPResponse) (e : String),
       vo.httpGet (http01ChallengeURL ch.value ch.token) = Except.ok resp →
       resp.statusCode < 400 → resp.body = Except.error e →
       (validateChallenge H db now ch jwk vo).1 =
         Except.ok { ch with error := some (serverInternalErr
           ("error reading response body for url " ++
            http01ChallengeURL ch.value ch.token ++ ": " ++ e)) }) ∧
    (∀ (vo : ValidateOptions) (resp : HTTPResponse) (bodyRaw ka : String),
       vo.httpGet (http01ChallengeURL ch.value ch.token) = Except.ok resp →
       resp.statusCode < 400 → resp.body = Except.ok bodyRaw →
       KeyAuthorization H ch.token jwk = Except.ok ka →
       trimSpace bodyRaw = ka →
       (validateChallenge H db now ch jwk vo).1 =
         Except.ok { ch with status := StatusValid, validated := now,
                             error := none, retry := none }) ∧
    (∀ (vo : ValidateOptions) (resp : HTTPResponse) (bodyRaw ka : String),
       vo.httpGet (http01ChallengeURL ch.value ch.token) = Except.ok resp →
       resp.statusCode < 400 → resp.body = Except.ok bodyRaw →
       KeyAuthorization H ch.token jwk = Except.ok ka →
       trimSpace bodyRaw ≠ ka →
       (validateChallenge H db now ch jwk vo).1 =
         Except.ok { ch with status := StatusInvalid, retry := none,
                             error := some (incorrectResponseErr
                               ("keyAuthorization does not match; expected " ++ ka ++
                                ", but got " ++ trimSpace bodyRaw)) }) := by
  have hs : ∀ upd old : Challenge, saveReturning db upd old =
      (Except.ok upd, [saveCall upd (some old)]) :=
    fun u o => saveReturning_of_dbOkAnswers u o hdb
  refine ⟨?_, ?_, ?_, ?_, ?_⟩
  · intro vo e hget
    rw [validateChallenge_http H db now ch jwk vo hst htyp]
    simp [http01Probe, hget, storeError, hs]
  · intro vo resp hget h400
    rw [validateChallenge_http H db now ch jwk vo hst htyp]
    simp [http01Probe, hget, h400, storeError, hs]
  · intro vo resp e hget hlt hbody
    rw [validateChallenge_http H db now ch jwk vo hst htyp]
    simp [http01Probe, hget, Nat.not_le.mpr hlt, hbody, storeError, hs]
  · intro vo resp bodyRaw ka hget hlt hbody hka heq
    rw [validateChallenge_http H db now ch jwk vo hst htyp]
    simp [http01Probe, hget, Nat.not_le.mpr hlt, hbody, hka, heq, hs]
  · intro vo resp bodyRaw ka hget hlt hbody hka hne
    rw [validateChallenge_http H db now ch jwk vo hst htyp]
    simp [http01Probe, hget, Nat.not_le.mpr hlt, hbody, hka, Ne.symm hne, hs]

theorem http01_validate_outcomes_witness :
    (validateChallenge hashLen dbOk 7 chFix jwkFix voNone).1 =
      Except.ok { chFix with error := some (connectionErr
        ("error doing http GET for url " ++ http01ChallengeURL chFix.value chFix.token ++
         ": " ++ "force")) } ∧
    (validateChallenge hashLen dbOk 7 chFix jwkFix voHTTP400).1 =
      Except.ok { chFix with error := some (connectionErr
        ("error doing http GET for url " ++ http01ChallengeURL chFix.value chFix.token ++
         " with status code " ++ toString (400 : Nat))) } ∧
    (validateChallenge hashLen dbOk 7 chFix jwkFix voHTTPBadBody).1 =
      Except.ok { chFix with error := some (serverInternalErr
        ("error reading response body for url " ++
         http01ChallengeURL chFix.value chFix.token ++ ": " ++ "force")) } ∧
    (validateChallenge hashLen dbOk 7 chFix jwkFix voHTTPGood).1 =
      Except.ok { chFix with status := StatusValid, validated := 7,
                             error := none, retry := none } ∧
    (validateChallenge hashLen dbOk 7 chFix jwkFix voHTTPFoo).1 =
      Except.ok { chFix with status := StatusInvalid, retry := none,
                             error := some (incorrectResponseErr
                               ("keyAuthorization does not match; expected " ++ kaFix ++
                                ", but got " ++ trimSpace "foo")) } := by
  have t := http01_validate_outcomes hashLen dbOk 7 chFix jwkFix rfl rfl (fun _ => rfl)
  exact ⟨t.1 voNone "force" rfl,
         t.2.1 voHTTP400 { statusCode := 400, body := Except.ok "" } rfl (by decide),
         t.2.2.1 voHTTPBadBody { statusCode := 200, body := Except.error "force" }
           "force" rfl (by decide) rfl,
         t.2.2.2.1 voHTTPGood { statusCode := 200, body := Except.ok "tok.LA " }
           "tok.LA " kaFix rfl (by decide) rfl rfl rfl,
         t.2.2.2.2 voHTTPFoo { statusCode := 200, body := Except.ok "foo" }
           "foo" kaFix rfl (by decide) rfl rfl (by decide)⟩

/-- C4: for every tls-alpn-01 challenge in processing where the handshake
succeeds with ALPN acme-tls/1, the leaf certificate carries a single DNS SAN
equal to value plus a critical acmeValidationV1 extension whose DER OCTET
STRING content is well formed but differs from the hash of the
key-authorization: validate sets the challenge to terminal status invalid
with an IncorrectResponse error whose message shows the hex encodings of the
expected and the received extension values. -/
theorem tlsalpn_hash_mismatch_invalid (H : HashFn) (db : DBOracle) (now : Nat)
    (ch : Challenge) (jwk : JWK) (vo : ValidateOptions) (cs : TLSConnState)
    (cert : TLSCertificate) (rest : List TLSCertificate) (ext : TLSExtension)
    (ka : String) (w : List Nat)
    (htyp : ch.type = "tls-alpn-01") (hst : ch.status = StatusProcessing)
    (hdb : ∀ c, db c = { value := none, swapped := true, ioError := none })
    (hka : KeyAuthorization H ch.token jwk = Except.ok ka)
    (hdial : vo.tlsDial (ch.value ++ ":443") = Except.ok cs)
    (hcerts : cs.peerCertificates = cert :: rest)
    (hproto : cs.negotiatedProtocol = "acme-tls/1")
    (hsan : cert.dnsNames = [ch.value])
    (hext : findExtension idPeAcmeIdentifier cert.extensions = some ext)
    (hcrit : ext.critical = true)
    (hparse : parseOctetString ext.value = some w)
    (hne : w ≠ H ka) :
    (validateChallenge H db now ch jwk vo).1 =
      Except.ok { ch with status := StatusInvalid, retry := none,
                          error := some (incorrectResponseErr
                            ("incorrect certificate for tls-alpn-01 challenge: expected acmeValidationV1 extension value " ++
                             hexEncode (H ka) ++ " for this challenge but got " ++
                             hexEncode w)) } := by
  have hs : ∀ upd old : Challenge, saveReturning db upd old =
      (Except.ok upd, [saveCall upd (some old)]) :=
    fun u o => saveReturning_of_dbOkAnswers u o hdb
  rw [validateChallenge_tls H db now ch jwk vo hst htyp]
  simp [tlsAlpn01Probe, hdial, hcerts, hproto, hsan, hka, hext, hcrit, hparse,
        hne, hs]

theorem tlsalpn_hash_mismatch_invalid_witness :
    (validateChallenge hashLen dbOk 7 chTLS jwkFix voTLSMismatch).1 =
      Except.ok { chTLS with status := StatusInvalid, retry := none,
                             error := some (incorrectResponseErr
                               ("incorrect certificate for tls-alpn-01 challenge: expected acmeValidationV1 extension value " ++
                                hexEncode (hashLen kaFix) ++ " for this challenge but got " ++
                                hexEncode [9])) } :=
  tlsalpn_hash_mismatch_invalid hashLen dbOk 7 chTLS jwkFix voTLSMismatch
    csMismatch certMismatch []
    { oid := idPeAcmeIdentifier, critical := true, value := [4, 1, 9] } kaFix [9]
    rfl rfl (fun _ => rfl) rfl rfl rfl rfl rfl rfl rfl rfl (by decide)

/-- C5 counterexample: a tls-alpn-01 challenge in processing probed against
a server whose certificate has the single correct DNS SAN but lacks the
acmeValidationV1 extension: validate records an IncorrectResponse-class
error, yet the returned record keeps the processing status instead of the
terminal invalid status the claim asserts. -/
theorem tlsalpn_missing_ext_cex :
    (validateChallenge hashLen dbOk 7 chTLS jwkFix voMissingExt).1 =
      Except.ok { chTLS with error := some (incorrectResponseErr
        "incorrect certificate for tls-alpn-01 challenge: missing acmeValidationV1 extension") } ∧
    ({ chTLS with error := some (incorrectResponseErr
        "incorrect certificate for tls-alpn-01 challenge: missing acmeValidationV1 extension") } :
        Challenge).status ≠ StatusInvalid :=
  ⟨rfl, by decide⟩

/-- C5 amended: for every tls-alpn-01 challenge in processing where the
handshake succeeds with ALPN acme-tls/1 and the leaf certificate has a
single DNS SAN equal to value but lacks the acmeValidationV1 extension: the
probe outcome is recorded on the record as an IncorrectResponse-class error,
but the outcome is not terminal: the record's status after validate remains
processing (only a decoded extension-hash mismatch is terminal for this
probe). -/
theorem tlsalpn_missing_ext_processing (H : HashFn) (db : DBOracle) (now : Nat)
    (ch : Challenge) (jwk : JWK) (vo : ValidateOptions) (cs : TLSConnState)
    (cert : TLSCertificate) (rest : List TLSCertificate) (ka : String)
    (htyp : ch.type = "tls-alpn-01") (hst : ch.status = StatusProcessing)
    (hdb : ∀ c, db c = { value := none, swapped := true, ioError := none })
    (hka : KeyAuthorization H ch.token jwk = Except.ok ka)
    (hdial : vo.tlsDial (ch.value ++ ":443") = Except.ok cs)
    (hcerts : cs.peerCertificates = cert :: rest)
    (hproto : cs.negotiatedProtocol = "acme-tls/1")
    (hsan : cert.dnsNames = [ch.value])
    (hext : findExtension idPeAcmeIdentifier cert.extensions = none) :
    ∃ m, (validateChallenge H db now ch jwk vo).1 =
        Except.ok { ch with error := some (incorrectResponseErr m) } ∧
      ({ ch with error := some (incorrectResponseErr m) } : Challenge).status =
        StatusProcessing := by
  have hs : ∀ upd old : Challenge, saveReturning db upd old =
      (Except.ok upd, [saveCall upd (some old)]) :=
    fun u o => saveReturning_of_dbOkAnswers u o hdb
  rw [validateChallenge_tls H db now ch jwk vo hst htyp]
  by_cases hobs : (findExtension idPeAcmeIdentifierV1Obsolete cert.extensions).isSome
  · refine ⟨"incorrect certificate for tls-alpn-01 challenge: obsolete id-pe-acmeIdentifier in acmeValidationV1 extension", ?_, ?_⟩
    · simp [tlsAlpn01Probe, hdial, hcerts, hproto, hsan, hka, hext, hobs,
            storeError, hs]
    · simpa using hst
  · refine ⟨"incorrect certificate for tls-alpn-01 challenge: missing acmeValidationV1 extension", ?_, ?_⟩
    · simp [tlsAlpn01Probe, hdial, hcerts, hproto, hsan, hka, hext, hobs,
            storeError, hs]
    · simpa using hst

theorem tlsalpn_missing_ext_processing_witness :
    ∃ m, (validateChallenge hashLen dbOk 7 chTLS jwkFix voMissingExt).1 =
        Except.ok { chTLS with error := some (incorrectResponseErr m) } ∧
      ({ chTLS with error := some (incorrectResponseErr m) } : Challenge).status =
        StatusProcessing :=
  tlsalpn_missing_ext_processing hashLen dbOk 7 chTLS jwkFix voMissingExt
    csMissingExt { dnsNames := ["zap.internal"], extensions := [] } [] kaFix
    rfl rfl (fun _ => rfl) rfl rfl rfl rfl rfl rfl

theorem dns01Domain_wildcard (dom : String) : dns01Domain ("*." ++ dom) = dom := by
  obtain ⟨l⟩ := dom
  show dns01Domain ⟨'*' :: '.' :: l⟩ = ⟨l⟩
  unfold dns01Domain
  simp [List.isPrefixOf]

/-- C6: for every dns-01 challenge in processing whose identifier begins
with a wildcard label: validate consults the resolver at
"_acme-challenge." followed by the identifier with the leading wildcard
stripped, and when one of the returned TXT records equals
base64url(hash(keyAuth)) the challenge becomes valid with validated = now
and error and retry cleared. -/
theorem dns01_wildcard_valid (H : HashFn) (db : DBOracle) (now : Nat)
    (ch : Challenge) (jwk : JWK) (vo : ValidateOptions) (dom ka : String)
    (txts : List String)
    (htyp : ch.type = "dns-01") (hst : ch.status = StatusProcessing)
    (hdb : ∀ c, db c = { value := none, swapped := true, ioError := none })
    (hval : ch.value = "*." ++ dom)
    (hka : KeyAuthorization H ch.token jwk = Except.ok ka)
    (hlookup : vo.lookupTxt ("_acme-challenge." ++ dom) = Except.ok txts)
    (hmem : txts.contains (b64urlEncode (H ka)) = true) :
    (validateChallenge H db now ch jwk vo).1 =
      Except.ok { ch with status := StatusValid, validated := now,
                          error := none, retry := none } := by
  have hs : ∀ upd old : Challenge, saveReturning db upd old =
      (Except.ok upd, [saveCall upd (some old)]) :=
    fun u o => saveReturning_of_dbOkAnswers u o hdb
  have hdom : dns01Domain ch.value = dom := by rw [hval]; exact dns01Domain_wildcard dom
  have hempty : txts.isEmpty = false := by
    cases txts with
    | nil => simp at hmem
    | cons a as => rfl
  have hmem2 : b64urlEncode (H ka) ∈ txts := by simpa using hmem
  rw [validateChallenge_dns H db now ch jwk vo hst htyp]
  simp [dns01Probe, hdom, hlookup, hempty, hka, hmem2, hs]

theorem dns01_wildcard_valid_witness :
    (validateChallenge hashLen dbOk 7 chDNS jwkFix voDNSWild).1 =
      Except.ok { chDNS with status := StatusValid, validated := 7,
                             error := none, retry := none } :=
  dns01_wildcard_valid hashLen dbOk 7 chDNS jwkFix voDNSWild "zap.internal"
    kaFix ["foo", b64urlEncode (hashLen kaFix)]
    rfl rfl (fun _ => rfl) rfl rfl rfl (by decide)

theorem http01Probe_ok_inv {H : HashFn} {db : DBOracle} {now : Nat}
    {ch : Challenge} {jwk : JWK} {vo : ValidateOptions} {r : Challenge}
    {calls : List CASCall}
    (h : http01Probe H db now ch jwk vo = (Except.ok r, calls)) :
    immutableFieldsEq r ch ∧ calls = [saveCall r (some ch)] := by
  unfold http01Probe storeError at h
  cases hget : vo.httpGet (http01ChallengeURL ch.value ch.token) with
  | error e =>
      simp only [hget] at h
      obtain ⟨rfl, rfl⟩ := saveReturning_ok_inv h
      exact ⟨⟨rfl, rfl, rfl, rfl, rfl, rfl⟩, rfl⟩
  | ok resp =>
      simp only [hget] at h
      by_cases h400 : 400 ≤ resp.statusCode
      · rw [if_pos h400] at h
        obtain ⟨rfl, rfl⟩ := saveReturning_ok_inv h
        exact ⟨⟨rfl, rfl, rfl, rfl, rfl, rfl⟩, rfl⟩
      · rw [if_neg h400] at h
        cases hbody : resp.body with
        | error e =>
            simp only [hbody] at h
            obtain ⟨rfl, rfl⟩ := saveReturning_ok_inv h
            exact ⟨⟨rfl, rfl, rfl, rfl, rfl, rfl⟩, rfl⟩
        | ok bodyRaw =>
            simp only [hbody] at h
            cases hka : KeyAuthorization H ch.token jwk with
            | error err => simp only [hka] at h; simp at h
            | ok ka =>
                simp only [hka] at h
                by_cases heq : ka = trimSpace bodyRaw
                · rw [if_pos heq] at h
                  obtain ⟨rfl, rfl⟩ := saveReturning_ok_inv h
                  exact ⟨⟨rfl, rfl, rfl, rfl, rfl, rfl⟩, rfl⟩
                · rw [if_neg heq] at h
                  obtain ⟨rfl, rfl⟩ := saveReturning_ok_inv h
                  exact ⟨⟨rfl, rfl, rfl, rfl, rfl, rfl⟩, rfl⟩

theorem dns01Probe_ok_inv {H : HashFn} {db : DBOracle} {now : Nat}
    {ch : Challenge} {jwk : JWK} {vo : ValidateOptions} {r : Challenge}
    {calls : List CASCall}
    (h : dns01Probe H db now ch jwk vo = (Except.ok r, calls)) :
    immutableFieldsEq r ch ∧ calls = [saveCall r (some ch)] := by
  unfold dns01Probe storeError at h
  cases hlook : vo.lookupTxt ("_acme-challenge." ++ dns01Domain ch.value) with
  | error e =>
      simp only [hlook] at h
      obtain ⟨rfl, rfl⟩ := saveReturning_ok_inv h
      exact ⟨⟨rfl, rfl, rfl, rfl, rfl, rfl⟩, rfl⟩
  | ok txts =>
      simp only [hlook] at h
      by_cases hempty : txts.isEmpty = true
      · rw [if_pos hempty] at h
        obtain ⟨rfl, rfl⟩ := saveReturning_ok_inv h
        exact ⟨⟨rfl, rfl, rfl, rfl, rfl, rfl⟩, rfl⟩
      · rw [if_neg hempty] at h
        cases hka : KeyAuthorization H ch.token jwk with
        | error err => simp only [hka] at h; simp at h
        | ok ka =>
            simp only [hka] at h
            by_cases hmem : txts.contains (b64urlEncode (H ka)) = true
            · rw [if_pos hmem] at h
              obtain ⟨rfl, rfl⟩ := saveReturning_ok_inv h
              exact ⟨⟨rfl, rfl, rfl, rfl, rfl, rfl⟩, rfl⟩
            · rw [if_neg hmem] at h
              obtain ⟨rfl, rfl⟩ := saveReturning_ok_inv h
              exact ⟨⟨rfl, rfl, rfl, rfl, rfl, rfl⟩, rfl⟩

theorem tlsAlpn01Probe_ok_inv {H : HashFn} {db : DBOracle} {now : Nat}
    {ch : Challenge} {jwk : JWK} {vo : ValidateOptions} {r : Challenge}
    {calls : List CASCall}
    (h : tlsAlpn01Probe H db now ch jwk vo = (Except.ok r, calls)) :
    immutableFieldsEq r ch ∧ calls = [saveCall r (some ch)] := by
  unfold tlsAlpn01Probe storeError at h
  cases hdial : vo.tlsDial (ch.value ++ ":443") with
  | error e =>
      simp only [hdial] at h
      obtain ⟨rfl, rfl⟩ := saveReturning_ok_inv h
      exact ⟨⟨rfl, rfl, rfl, rfl, rfl, rfl⟩, rfl⟩
  | ok cs =>
      simp only [hdial] at h
      cases hcerts : cs.peerCertificates with
      | nil =>
          simp only [hcerts] at h
          obtain ⟨rfl, rfl⟩ := saveReturning_ok_inv h
          exact ⟨⟨rfl, rfl, rfl, rfl, rfl, rfl⟩, rfl⟩
      | cons leafCert others =>
          simp only [hcerts] at h
          by_cases hproto : cs.negotiatedProtocol ≠ "acme-tls/1"
          · rw [if_pos hproto] at h
            obtain ⟨rfl, rfl⟩ := saveReturning_ok_inv h
            exact ⟨⟨rfl, rfl, rfl, rfl, rfl, rfl⟩, rfl⟩
          · rw [if_neg hproto] at h
            by_cases hsan : leafCert.dnsNames ≠ [ch.value]
            · rw [if_pos hsan] at h
              obtain ⟨rfl, rfl⟩ := saveReturning_ok_inv h
              exact ⟨⟨rfl, rfl, rfl, rfl, rfl, rfl⟩, rfl⟩
            · rw [if_neg hsan] at h
              cases hka : KeyAuthorization H ch.token jwk with
              | error err => simp only [hka] at h; simp at h
              | ok ka =>
                  simp only [hka] at h
                  cases hext : findExtension idPeAcmeIdentifier leafCert.extensions with
                  | some ext =>
                      simp only [hext] at h
                      by_cases hcrit : ext.critical = true
                      · rw [if_pos hcrit] at h
                        cases hparse : parseOctetString ext.value with
                        | none =>
                            simp only [hparse] at h
                            obtain ⟨rfl, rfl⟩ := saveReturning_ok_inv h
                            exact ⟨⟨rfl, rfl, rfl, rfl, rfl, rfl⟩, rfl⟩
                        | some extValue =>
                            simp only [hparse] at h
                            by_cases hv : extValue = H ka
                            · rw [if_pos hv] at h
                              obtain ⟨rfl, rfl⟩ := saveReturning_ok_inv h
                              exact ⟨⟨rfl, rfl, rfl, rfl, rfl, rfl⟩, rfl⟩
                            · rw [if_neg hv] at h
                              obtain ⟨rfl, rfl⟩ := saveReturning_ok_inv h
                              exact ⟨⟨rfl, rfl, rfl, rfl, rfl, rfl⟩, rfl⟩
                      · rw [if_neg hcrit] at h
                        obtain ⟨rfl, rfl⟩ := saveReturning_ok_inv h
                        exact ⟨⟨rfl, rfl, rfl, rfl, rfl, rfl⟩, rfl⟩
                  | none =>
                      simp only [hext] at h
                      by_cases hobs :
                        (findExtension idPeAcmeIdentifierV1Obsolete leafCert.extensions).isSome = true
                      · rw [if_pos hobs] at h
                        obtain ⟨rfl, rfl⟩ := saveReturning_ok_inv h
                        exact ⟨⟨rfl, rfl, rfl, rfl, rfl, rfl⟩, rfl⟩
                      · rw [if_neg hobs] at h
                        obtain ⟨rfl, rfl⟩ := saveReturning_ok_inv h
                        exact ⟨⟨rfl, rfl, rfl, rfl, rfl, rfl⟩, rfl⟩

/-- C9: for every challenge record and every outcome of validate that
returns a record (terminal no-op, transient probe failure, transition to
valid, transition to invalid), the fields type, token, id, account_id,
authz_id and created of the returned record equal those of the input
record, and every persisted write of the call stores exactly the
serialization of the returned record. -/
theorem validate_preserves_immutable (H : HashFn) (db : DBOracle) (now : Nat)
    (ch : Challenge) (jwk : JWK) (vo : ValidateOptions) (r : Challenge)
    (calls : List CASCall)
    (h : validateChallenge H db now ch jwk vo = (Except.ok r, calls)) :
    immutableFieldsEq r ch ∧ ∀ c ∈ calls, c.newv = serializeChallenge r := by
  unfold validateChallenge at h
  split at h
  · simp only [Prod.mk.injEq, Except.ok.injEq] at h
    obtain ⟨rfl, rfl⟩ := h
    exact ⟨⟨rfl, rfl, rfl, rfl, rfl, rfl⟩, by simp⟩
  · split at h
    · simp at h
    · split at h
      · split at h
        · obtain ⟨hb, rfl⟩ := http01Probe_ok_inv h
          refine ⟨hb, ?_⟩
          intro c hc
          simp only [List.mem_singleton] at hc
          subst hc
          rfl
        · split at h
          · obtain ⟨hb, rfl⟩ := dns01Probe_ok_inv h
            refine ⟨hb, ?_⟩
            intro c hc
            simp only [List.mem_singleton] at hc
            subst hc
            rfl
          · split at h
            · obtain ⟨hb, rfl⟩ := tlsAlpn01Probe_ok_inv h
              refine ⟨hb, ?_⟩
              intro c hc
              simp only [List.mem_singleton] at hc
              subst hc
              rfl
            · simp at h
      · simp at h

theorem validate_preserves_immutable_witness :
    immutableFieldsEq chFixValid chFix ∧
    ∀ c ∈ [saveCall chFixValid (some chFix)],
      c.newv = serializeChallenge chFixValid :=
  validate_preserves_immutable hashLen dbOk 7 chFix jwkFix voHTTPGood
    chFixValid [saveCall chFixValid (some chFix)] rfl

end ACME
